import Mathlib

/-!
Shallow embedding of the golem-cloud-cli command dispatch and
error-normalization layer (src/model.rs, src/clients.rs,
src/gateway/deployment.rs).  Rust `String` is Lean `String`; `Uuid` is kept
opaque as a string; machine-level details (HTTP transport, clap parsing)
appear only as abstract parameters.
-/

/-- `uuid::Uuid`, kept opaque: only equality matters to the embedded code. -/
abbrev Uuid := String

/-- `pub struct GolemError(pub String)` from src/model.rs. -/
structure GolemError where
  msg : String
deriving DecidableEq, Repr

/-- `golem_client::account::AccountError` (closed per-resource error set). -/
inductive AccountError where
  | RequestFailure (err : String)
  | InvalidHeaderValue (err : String)
  | UnexpectedStatus (sc : Nat)
  | Status404 (message : String)
  | Status400 (errors : List String)
  | Status500 (error : String)
deriving DecidableEq, Repr

/-- `impl From<AccountError> for GolemError` (src/model.rs lines 49-63). -/
def golemErrorOfAccountError : AccountError → GolemError
  | .RequestFailure err => ⟨"Unexpected request failure: " ++ err⟩
  | .InvalidHeaderValue err => ⟨"Unexpected invalid header value: " ++ err⟩
  | .UnexpectedStatus sc => ⟨"Unexpected status: " ++ toString sc⟩
  | .Status404 message => ⟨"Not found: " ++ message⟩
  | .Status400 errors =>
      let msg := String.intercalate ", " errors
      ⟨"Invalid API call: " ++ msg⟩
  | .Status500 error => ⟨"Internal server error: " ++ error⟩

/-- `golem_client::token::TokenError`. -/
inductive TokenError where
  | RequestFailure (err : String)
  | InvalidHeaderValue (err : String)
  | UnexpectedStatus (sc : Nat)
  | Status404 (message : String)
  | Status400 (errors : List String)
  | Status500 (error : String)
deriving DecidableEq, Repr

/-- `impl From<TokenError> for GolemError` (src/model.rs lines 65-79). -/
def golemErrorOfTokenError : TokenError → GolemError
  | .RequestFailure err => ⟨"Unexpected request failure: " ++ err⟩
  | .InvalidHeaderValue err => ⟨"Unexpected invalid header value: " ++ err⟩
  | .UnexpectedStatus sc => ⟨"Unexpected status: " ++ toString sc⟩
  | .Status404 message => ⟨"Not found: " ++ message⟩
  | .Status400 errors =>
      let msg := String.intercalate ", " errors
      ⟨"Invalid API call: " ++ msg⟩
  | .Status500 error => ⟨"Internal server error: " ++ error⟩

/-- `golem_client::component::ComponentError`. -/
inductive ComponentError where
  | RequestFailure (err : String)
  | InvalidHeaderValue (err : String)
  | UnexpectedStatus (sc : Nat)
  | Status504
  | Status404 (message : String)
  | Status403 (error : String)
  | Status400 (errors : List String)
  | Status500 (error : String)
  | Status409 (component_id : String)
deriving DecidableEq, Repr

/-- `impl From<ComponentError> for GolemError` (src/model.rs lines 81-98).
Note the 404 arm: `ComponentError::Status404 { message } => GolemError(message)`
passes the backend message through verbatim, without the "Not found: " prefix
used by every other resource family. -/
def golemErrorOfComponentError : ComponentError → GolemError
  | .RequestFailure err => ⟨"Unexpected request failure: " ++ err⟩
  | .InvalidHeaderValue err => ⟨"Unexpected invalid header value: " ++ err⟩
  | .UnexpectedStatus sc => ⟨"Unexpected status: " ++ toString sc⟩
  | .Status504 => ⟨"Gateway Timeout"⟩
  | .Status404 message => ⟨message⟩
  | .Status403 error => ⟨"Limit Exceeded: " ++ error⟩
  | .Status400 errors =>
      let msg := String.intercalate ", " errors
      ⟨"Invalid API call: " ++ msg⟩
  | .Status500 error => ⟨"Internal server error: " ++ error⟩
  | .Status409 component_id => ⟨component_id ++ " already exists"⟩

/-- `golem_client::login::LoginError`. -/
inductive LoginError where
  | RequestFailure (err : String)
  | InvalidHeaderValue (err : String)
  | UnexpectedStatus (sc : Nat)
  | Status403 (error : String)
  | Status500 (error : String)
  | Status401 (error : String)
deriving DecidableEq, Repr

/-- The dedented `indoc!` literal used for `LoginError::Status403`. -/
def loginRestrictedMsg : String :=
  "At the moment account creation is restricted.\nNone of your verified emails is whitelisted.\nPlease contact us to create an account.\n"

/-- `impl From<LoginError> for GolemError` (src/model.rs lines 100-118). -/
def golemErrorOfLoginError : LoginError → GolemError
  | .RequestFailure err => ⟨"Unexpected request failure: " ++ err⟩
  | .InvalidHeaderValue err => ⟨"Unexpected invalid header value: " ++ err⟩
  | .UnexpectedStatus sc => ⟨"Unexpected status: " ++ toString sc⟩
  | .Status403 _ => ⟨loginRestrictedMsg⟩
  | .Status500 error => ⟨"Internal server error on Login: " ++ error⟩
  | .Status401 error => ⟨"External service call error on Login: " ++ error⟩

/-- `golem_client::project::ProjectError`. -/
inductive ProjectError where
  | RequestFailure (err : String)
  | InvalidHeaderValue (err : String)
  | UnexpectedStatus (sc : Nat)
  | Status404 (message : String)
  | Status400 (errors : List String)
  | Status403 (error : String)
  | Status500 (error : String)
deriving DecidableEq, Repr

/-- `impl From<ProjectError> for GolemError` (src/model.rs lines 120-135). -/
def golemErrorOfProjectError : ProjectError → GolemError
  | .RequestFailure err => ⟨"Unexpected request failure: " ++ err⟩
  | .InvalidHeaderValue err => ⟨"Unexpected invalid header value: " ++ err⟩
  | .UnexpectedStatus sc => ⟨"Unexpected status: " ++ toString sc⟩
  | .Status404 message => ⟨"Not found: " ++ message⟩
  | .Status400 errors =>
      let msg := String.intercalate ", " errors
      ⟨"Invalid API call: " ++ msg⟩
  | .Status403 error => ⟨"Limit Exceeded: " ++ error⟩
  | .Status500 error => ⟨"Internal server error: " ++ error⟩

/-- `golem_client::grant::GrantError`. -/
inductive GrantError where
  | RequestFailure (err : String)
  | InvalidHeaderValue (err : String)
  | UnexpectedStatus (sc : Nat)
  | Status404 (message : String)
  | Status400 (errors : List String)
  | Status500 (error : String)
deriving DecidableEq, Repr

/-- `impl From<GrantError> for GolemError` (src/model.rs lines 137-151). -/
def golemErrorOfGrantError : GrantError → GolemError
  | .RequestFailure err => ⟨"Unexpected request failure: " ++ err⟩
  | .InvalidHeaderValue err => ⟨"Unexpected invalid header value: " ++ err⟩
  | .UnexpectedStatus sc => ⟨"Unexpected status: " ++ toString sc⟩
  | .Status404 message => ⟨"Not found: " ++ message⟩
  | .Status400 errors =>
      let msg := String.intercalate ", " errors
      ⟨"Invalid API call: " ++ msg⟩
  | .Status500 error => ⟨"Internal server error: " ++ error⟩

/-- `golem_client::project_policy::ProjectPolicyError`. -/
inductive ProjectPolicyError where
  | RequestFailure (err : String)
  | InvalidHeaderValue (err : String)
  | UnexpectedStatus (sc : Nat)
  | Status404 (message : String)
  | Status400 (errors : List String)
  | Status403 (error : String)
  | Status500 (error : String)
deriving DecidableEq, Repr

/-- `impl From<ProjectPolicyError> for GolemError` (src/model.rs lines 153-168). -/
def golemErrorOfProjectPolicyError : ProjectPolicyError → GolemError
  | .RequestFailure err => ⟨"Unexpected request failure: " ++ err⟩
  | .InvalidHeaderValue err => ⟨"Unexpected invalid header value: " ++ err⟩
  | .UnexpectedStatus sc => ⟨"Unexpected status: " ++ toString sc⟩
  | .Status404 message => ⟨"Not found: " ++ message⟩
  | .Status400 errors =>
      let msg := String.intercalate ", " errors
      ⟨"Invalid API call: " ++ msg⟩
  | .Status403 error => ⟨"Limit Exceeded: " ++ error⟩
  | .Status500 error => ⟨"Internal server error: " ++ error⟩

/-- `golem_client::project_grant::ProjectGrantError`. -/
inductive ProjectGrantError where
  | RequestFailure (err : String)
  | InvalidHeaderValue (err : String)
  | UnexpectedStatus (sc : Nat)
  | Status404 (message : String)
  | Status400 (errors : List String)
  | Status403 (error : String)
  | Status500 (error : String)
deriving DecidableEq, Repr

/-- `impl From<ProjectGrantError> for GolemError` (src/model.rs lines 170-185). -/
def golemErrorOfProjectGrantError : ProjectGrantError → GolemError
  | .RequestFailure err => ⟨"Unexpected request failure: " ++ err⟩
  | .InvalidHeaderValue err => ⟨"Unexpected invalid header value: " ++ err⟩
  | .UnexpectedStatus sc => ⟨"Unexpected status: " ++ toString sc⟩
  | .Status404 message => ⟨"Not found: " ++ message⟩
  | .Status400 errors =>
      let msg := String.intercalate ", " errors
      ⟨"Invalid API call: " ++ msg⟩
  | .Status403 error => ⟨"Limit Exceeded: " ++ error⟩
  | .Status500 error => ⟨"Internal server error: " ++ error⟩

/-- `pub enum Format { Json, Yaml }` (src/model.rs line 209). -/
inductive Format where
  | Json
  | Yaml
deriving DecidableEq, Repr

/-- `impl Display for Format` (src/model.rs lines 215-223). -/
def Format.display : Format → String
  | .Json => "json"
  | .Yaml => "yaml"

/-- `Format::iter()` from the `EnumIter` derive: all variants in declaration
order. -/
def Format.iterAll : List Format := [Format.Json, Format.Yaml]

/-- `impl FromStr for Format` (src/model.rs lines 225-242). -/
def Format.fromStr (s : String) : Except String Format :=
  match s with
  | "json" => Except.ok Format.Json
  | "yaml" => Except.ok Format.Yaml
  | _ =>
      let all := String.intercalate ", "
        (Format.iterAll.map (fun x => "\"" ++ x.display ++ "\""))
      Except.error ("Unknown format: " ++ s ++ ". Expected one of " ++ all)

/-- `pub struct AccountId { pub id: String }` (src/model.rs line 244). -/
structure AccountId where
  id : String
deriving DecidableEq, Repr

/-- `pub struct ProjectId(pub Uuid)` (src/model.rs line 260). -/
structure ProjectId where
  val : Uuid
deriving DecidableEq, Repr

/-- `pub enum ProjectRef { Id(ProjectId), Name(String), Default }`
(src/model.rs lines 262-267). -/
inductive ProjectRef where
  | Id (id : ProjectId)
  | Name (name : String)
  | Default
deriving DecidableEq, Repr

/-- `struct ProjectRefArgs { project_id: Option<Uuid>, project_name:
Option<String> }` (src/model.rs lines 293-300). -/
structure ProjectRefArgs where
  project_id : Option Uuid
  project_name : Option String
deriving DecidableEq, Repr

/-- `impl From<&ProjectRefArgs> for ProjectRef` (src/model.rs lines 302-312). -/
def ProjectRef.fromArgs (value : ProjectRefArgs) : ProjectRef :=
  match value.project_id with
  | some id => ProjectRef.Id ⟨id⟩
  | none =>
      match value.project_name with
      | some name => ProjectRef.Name name
      | none => ProjectRef.Default

/-- `impl From<&ProjectRef> for ProjectRefArgs` (src/model.rs lines 314-328). -/
def ProjectRefArgs.fromRef (value : ProjectRef) : ProjectRefArgs :=
  match value with
  | ProjectRef.Id ⟨id⟩ => { project_id := some id, project_name := none }
  | ProjectRef.Name name => { project_id := none, project_name := some name }
  | ProjectRef.Default => { project_id := none, project_name := none }

/-- `pub struct RawComponentId(pub Uuid)` (src/model.rs line 414). -/
structure RawComponentId where
  val : Uuid
deriving DecidableEq, Repr

/-- `pub struct ComponentName(pub String)` (src/model.rs line 417). -/
structure ComponentName where
  val : String
deriving DecidableEq, Repr

/-- `pub enum ComponentIdOrName` (src/model.rs lines 419-423). -/
inductive ComponentIdOrName where
  | Id (id : RawComponentId)
  | Name (name : ComponentName) (pr : ProjectRef)
deriving DecidableEq, Repr

/-- `struct ComponentIdOrNameArgs` (src/model.rs lines 354-367). -/
structure ComponentIdOrNameArgs where
  component_id : Option Uuid
  component_name : Option String
  project_id : Option Uuid
  project_name : Option String
deriving DecidableEq, Repr

/-- `impl From<&ComponentIdOrNameArgs> for ComponentIdOrName` (src/model.rs
lines 370-386).  The source calls `.unwrap()` on `component_name` in the
no-component-id branch; the panic of that unwrap is modelled as `none`. -/
def ComponentIdOrName.fromArgs (value : ComponentIdOrNameArgs) :
    Option ComponentIdOrName :=
  let pr : ProjectRef :=
    match value.project_id with
    | some id => ProjectRef.Id ⟨id⟩
    | none =>
        match value.project_name with
        | some name => ProjectRef.Name name
        | none => ProjectRef.Default
  match value.component_id with
  | some id => some (ComponentIdOrName.Id ⟨id⟩)
  | none => value.component_name.map (fun n => ComponentIdOrName.Name ⟨n⟩ pr)

/-- `impl From<&ComponentIdOrName> for ComponentIdOrNameArgs` (src/model.rs
lines 388-411). -/
def ComponentIdOrNameArgs.fromIdOrName (value : ComponentIdOrName) :
    ComponentIdOrNameArgs :=
  match value with
  | ComponentIdOrName.Id ⟨id⟩ =>
      { component_id := some id, component_name := none,
        project_id := none, project_name := none }
  | ComponentIdOrName.Name ⟨name⟩ pr =>
      let p : Option Uuid × Option String :=
        match pr with
        | ProjectRef.Id ⟨id⟩ => (some id, none)
        | ProjectRef.Name n => (none, some n)
        | ProjectRef.Default => (none, none)
      { component_id := none, component_name := some name,
        project_id := p.1, project_name := p.2 }

/-- `pub enum Role` (src/model.rs lines 425-434). -/
inductive Role where
  | Admin
  | WhitelistAdmin
  | MarketingAdmin
  | ViewProject
  | DeleteProject
  | CreateProject
  | InstanceServer
deriving DecidableEq, Repr

/-- `impl Display for Role` (src/model.rs lines 436-450). -/
def Role.display : Role → String
  | .Admin => "Admin"
  | .WhitelistAdmin => "WhitelistAdmin"
  | .MarketingAdmin => "MarketingAdmin"
  | .ViewProject => "ViewProject"
  | .DeleteProject => "DeleteProject"
  | .CreateProject => "CreateProject"
  | .InstanceServer => "InstanceServer"

/-- `Role::iter()` from the `EnumIter` derive: all variants in declaration
order. -/
def Role.iterAll : List Role :=
  [Role.Admin, Role.WhitelistAdmin, Role.MarketingAdmin, Role.ViewProject,
   Role.DeleteProject, Role.CreateProject, Role.InstanceServer]

/-- `impl FromStr for Role` (src/model.rs lines 452-474). -/
def Role.fromStr (s : String) : Except String Role :=
  match s with
  | "Admin" => Except.ok Role.Admin
  | "WhitelistAdmin" => Except.ok Role.WhitelistAdmin
  | "MarketingAdmin" => Except.ok Role.MarketingAdmin
  | "ViewProject" => Except.ok Role.ViewProject
  | "DeleteProject" => Except.ok Role.DeleteProject
  | "CreateProject" => Except.ok Role.CreateProject
  | "InstanceServer" => Except.ok Role.InstanceServer
  | _ =>
      let all := String.intercalate ", "
        (Role.iterAll.map (fun x => "\"" ++ x.display ++ "\""))
      Except.error ("Unknown role: " ++ s ++ ". Expected one of " ++ all)

/-- `golem_cloud_client::model::TokenSecret` (external collaborator type
consumed by src/clients.rs): carries the opaque secret value. -/
structure TokenSecret where
  value : String
deriving DecidableEq, Repr

/-- The token metadata of `golem_cloud_client::model::UnsafeToken`'s `data`
field (external collaborator type); only `account_id` is read by the core. -/
structure TokenData where
  account_id : String
deriving DecidableEq, Repr

/-- `golem_cloud_client::model::UnsafeToken` (external collaborator type):
token metadata plus its secret. -/
structure UnsafeToken where
  data : TokenData
  secret : TokenSecret
deriving DecidableEq, Repr

/-- `pub fn token_header(secret: &TokenSecret) -> String` (src/clients.rs
lines 31-33). -/
def token_header (secret : TokenSecret) : String :=
  "bearer " ++ secret.value

/-- `pub struct CloudAuthentication(pub UnsafeToken)` (src/clients.rs line 36). -/
structure CloudAuthentication where
  token : UnsafeToken
deriving DecidableEq, Repr

/-- `CloudAuthentication::header` (src/clients.rs lines 39-43). -/
def CloudAuthentication.header (a : CloudAuthentication) : String :=
  token_header a.token.secret

/-- `CloudAuthentication::account_id` (src/clients.rs lines 45-51). -/
def CloudAuthentication.accountId (a : CloudAuthentication) : AccountId :=
  { id := a.token.data.account_id }

/-- `golem_gateway_client::model::ApiSite` (external collaborator type used by
src/gateway/deployment.rs). -/
structure ApiSite where
  host : String
  subdomain : String
deriving DecidableEq, Repr

/-- `golem_gateway_client::model::ApiDeployment` (external collaborator type
used by src/gateway/deployment.rs). -/
structure ApiDeployment where
  project_id : Uuid
  api_definition_id : String
  site : ApiSite
deriving DecidableEq, Repr

/-- `pub enum DeploymentSubcommand` (src/gateway/deployment.rs lines 25-53). -/
inductive DeploymentSubcommand where
  | Get (project_ref : ProjectRef) (definition_id : String)
  | Add (project_ref : ProjectRef) (definition_id : String)
        (host : String) (subdomain : String)
  | Delete (project_ref : ProjectRef) (site : String) (definition_id : String)
deriving DecidableEq, Repr

/-- The printable payloads produced by the deployment handler: the
`Box<dyn PrintRes>` of `GolemResult::Ok` specialised to this handler's
return values. -/
inductive DeployPayload where
  | deployment (d : ApiDeployment)
  | text (s : String)
deriving DecidableEq, Repr

/-- `pub enum GolemResult { Ok(Box<dyn PrintRes>), Str(String) }`
(src/model.rs lines 20-23), with the trait object instantiated at the
deployment handler's payloads. -/
inductive GolemResult where
  | Ok (payload : DeployPayload)
  | Str (s : String)
deriving DecidableEq, Repr

/-- `trait DeploymentClient` (the `self.client` capability of
`DeploymentHandlerLive`): each operation returns its native result or a
`GolemError` (the `?` operator applies the Error Normalizer at the call
site, so the abstraction is taken post-normalization). -/
structure DeploymentClient where
  get : ProjectId → String → Except GolemError ApiDeployment
  update : ApiDeployment → Except GolemError ApiDeployment
  delete : ProjectId → String → String → Except GolemError String

/-- An observable record of the backend calls the handler issues, used to
state non-invocation (short-circuit) properties. -/
inductive ClientCall where
  | get (project_id : ProjectId) (definition_id : String)
  | update (deployment : ApiDeployment)
  | delete (project_id : ProjectId) (definition_id : String) (site : String)
deriving DecidableEq, Repr

/-- `DeploymentHandlerLive::handle` (src/gateway/deployment.rs lines 73-113).
`resolve` embeds `self.projects.resolve_id_or_default` (the project
reference Resolver, an injected capability); the returned list records the
deployment-client calls made, in order.  `?`-propagation of errors is the
`Except.error` short-circuit. -/
def DeploymentHandlerLive.handle
    (resolve : ProjectRef → Except GolemError ProjectId)
    (client : DeploymentClient) :
    DeploymentSubcommand → Except GolemError GolemResult × List ClientCall
  | .Get project_ref definition_id =>
      match resolve project_ref with
      | .error e => (.error e, [])
      | .ok project_id =>
          match client.get project_id definition_id with
          | .error e => (.error e, [.get project_id definition_id])
          | .ok res =>
              (.ok (GolemResult.Ok (.deployment res)),
               [.get project_id definition_id])
  | .Add project_ref definition_id host subdomain =>
      match resolve project_ref with
      | .error e => (.error e, [])
      | .ok pid =>
          let deployment : ApiDeployment :=
            { project_id := pid.val,
              api_definition_id := definition_id,
              site := { host := host, subdomain := subdomain } }
          match client.update deployment with
          | .error e => (.error e, [.update deployment])
          | .ok res =>
              (.ok (GolemResult.Ok (.deployment res)), [.update deployment])
  | .Delete project_ref site definition_id =>
      match resolve project_ref with
      | .error e => (.error e, [])
      | .ok project_id =>
          match client.delete project_id definition_id site with
          | .error e => (.error e, [.delete project_id definition_id site])
          | .ok res =>
              (.ok (GolemResult.Ok (.text res)),
               [.delete project_id definition_id site])

theorem append_ne_empty_left (p q : String) (h : p ≠ "") : p ++ q ≠ "" := by
  intro hc
  apply h
  have hd : p.data ++ q.data = [] := congrArg String.data hc
  have hp : p.data = [] := (List.append_eq_nil.mp hd).1
  cases p with
  | mk d => cases hp; rfl

theorem append_ne_empty_right (p q : String) (h : q ≠ "") : p ++ q ≠ "" := by
  intro hc
  apply h
  have hd : p.data ++ q.data = [] := congrArg String.data hc
  have hq : q.data = [] := (List.append_eq_nil.mp hd).2
  cases q with
  | mk d => cases hq; rfl

theorem accountErrorMsgNeEmpty (e : AccountError) :
    (golemErrorOfAccountError e).msg ≠ "" := by
  cases e <;> exact append_ne_empty_left _ _ (by decide)

theorem tokenErrorMsgNeEmpty (e : TokenError) :
    (golemErrorOfTokenError e).msg ≠ "" := by
  cases e <;> exact append_ne_empty_left _ _ (by decide)

theorem loginErrorMsgNeEmpty (e : LoginError) :
    (golemErrorOfLoginError e).msg ≠ "" := by
  cases e with
  | Status403 error =>
      show loginRestrictedMsg ≠ ""
      decide
  | RequestFailure err => exact append_ne_empty_left _ _ (by decide)
  | InvalidHeaderValue err => exact append_ne_empty_left _ _ (by decide)
  | UnexpectedStatus sc => exact append_ne_empty_left _ _ (by decide)
  | Status500 error => exact append_ne_empty_left _ _ (by decide)
  | Status401 error => exact append_ne_empty_left _ _ (by decide)

theorem projectErrorMsgNeEmpty (e : ProjectError) :
    (golemErrorOfProjectError e).msg ≠ "" := by
  cases e <;> exact append_ne_empty_left _ _ (by decide)

theorem grantErrorMsgNeEmpty (e : GrantError) :
    (golemErrorOfGrantError e).msg ≠ "" := by
  cases e <;> exact append_ne_empty_left _ _ (by decide)

theorem projectPolicyErrorMsgNeEmpty (e : ProjectPolicyError) :
    (golemErrorOfProjectPolicyError e).msg ≠ "" := by
  cases e <;> exact append_ne_empty_left _ _ (by decide)

theorem projectGrantErrorMsgNeEmpty (e : ProjectGrantError) :
    (golemErrorOfProjectGrantError e).msg ≠ "" := by
  cases e <;> exact append_ne_empty_left _ _ (by decide)

/-- C1 counterexample: the component family's 404 conversion does NOT produce
the "Not found: {message}" pattern — it returns the backend message verbatim. -/
theorem C1_counterexample :
    golemErrorOfComponentError (ComponentError.Status404 "component xyz missing") ≠
      GolemError.mk ("Not found: " ++ "component xyz missing") := by
  decide

/-- C1 (amended): the 404 conversions of the account, token, project, grant,
project-policy and project-grant families each produce exactly
"Not found: {message}"; the component family's 404 conversion instead
produces the backend-supplied message verbatim. -/
theorem C1_notFound_pattern (message : String) :
    golemErrorOfAccountError (AccountError.Status404 message) =
      GolemError.mk ("Not found: " ++ message) ∧
    golemErrorOfTokenError (TokenError.Status404 message) =
      GolemError.mk ("Not found: " ++ message) ∧
    golemErrorOfProjectError (ProjectError.Status404 message) =
      GolemError.mk ("Not found: " ++ message) ∧
    golemErrorOfGrantError (GrantError.Status404 message) =
      GolemError.mk ("Not found: " ++ message) ∧
    golemErrorOfProjectPolicyError (ProjectPolicyError.Status404 message) =
      GolemError.mk ("Not found: " ++ message) ∧
    golemErrorOfProjectGrantError (ProjectGrantError.Status404 message) =
      GolemError.mk ("Not found: " ++ message) ∧
    golemErrorOfComponentError (ComponentError.Status404 message) =
      GolemError.mk message :=
  ⟨rfl, rfl, rfl, rfl, rfl, rfl, rfl⟩

/-- C2: converting a ProjectRef to its argument representation and back yields
the original ProjectRef, for all three variants. -/
theorem C2_projectRef_round_trip (pr : ProjectRef) :
    ProjectRef.fromArgs (ProjectRefArgs.fromRef pr) = pr := by
  cases pr with
  | Id id => cases id; rfl
  | Name name => rfl
  | Default => rfl

/-- C3: Format parsing accepts exactly "json" and "yaml" (case-sensitively);
every other string yields an error message enumerating both valid options. -/
theorem C3_format_fromStr :
    Format.fromStr "json" = Except.ok Format.Json ∧
    Format.fromStr "yaml" = Except.ok Format.Yaml ∧
    ∀ s : String, s ≠ "json" → s ≠ "yaml" →
      Format.fromStr s =
        Except.error ("Unknown format: " ++ s ++ ". Expected one of " ++
          "\"json\", \"yaml\"") := by
  refine ⟨rfl, rfl, ?_⟩
  intro s h1 h2
  unfold Format.fromStr
  split
  · exact absurd rfl h1
  · exact absurd rfl h2
  · rfl

theorem C3_format_fromStr_witness :
    Format.fromStr "JSON" =
      Except.error ("Unknown format: " ++ "JSON" ++ ". Expected one of " ++
        "\"json\", \"yaml\"") :=
  C3_format_fromStr.2.2 "JSON" (by decide) (by decide)

/-- C4: Role parsing maps each of the seven exact role names to its variant;
every other string (including wrong-case "admin") yields an error message
listing all seven role names. -/
theorem C4_role_fromStr :
    Role.fromStr "Admin" = Except.ok Role.Admin ∧
    Role.fromStr "WhitelistAdmin" = Except.ok Role.WhitelistAdmin ∧
    Role.fromStr "MarketingAdmin" = Except.ok Role.MarketingAdmin ∧
    Role.fromStr "ViewProject" = Except.ok Role.ViewProject ∧
    Role.fromStr "DeleteProject" = Except.ok Role.DeleteProject ∧
    Role.fromStr "CreateProject" = Except.ok Role.CreateProject ∧
    Role.fromStr "InstanceServer" = Except.ok Role.InstanceServer ∧
    ∀ s : String,
      s ∉ ["Admin", "WhitelistAdmin", "MarketingAdmin", "ViewProject",
           "DeleteProject", "CreateProject", "InstanceServer"] →
      Role.fromStr s =
        Except.error ("Unknown role: " ++ s ++ ". Expected one of " ++
          "\"Admin\", \"WhitelistAdmin\", \"MarketingAdmin\", \"ViewProject\", \"DeleteProject\", \"CreateProject\", \"InstanceServer\"") := by
  refine ⟨rfl, rfl, rfl, rfl, rfl, rfl, rfl, ?_⟩
  intro s h
  unfold Role.fromStr
  split
  all_goals first
    | rfl
    | exact absurd (by decide) h

theorem C4_role_fromStr_witness :
    Role.fromStr "admin" =
      Except.error ("Unknown role: " ++ "admin" ++ ". Expected one of " ++
        "\"Admin\", \"WhitelistAdmin\", \"MarketingAdmin\", \"ViewProject\", \"DeleteProject\", \"CreateProject\", \"InstanceServer\"") :=
  C4_role_fromStr.2.2.2.2.2.2.2 "admin" (by decide)

/-- C5: on an Add deployment subcommand whose project reference resolves to
id P, the handler passes client.update exactly the descriptor
{project_id := P, api_definition_id := definition_id, site := {host,
subdomain}} and, on backend success, returns GolemResult.Ok wrapping the
deployment the client returned. -/
theorem C5_deployment_add
    (resolve : ProjectRef → Except GolemError ProjectId)
    (client : DeploymentClient)
    (project_ref : ProjectRef) (definition_id host subdomain : String)
    (P : ProjectId) (d : ApiDeployment)
    (hres : resolve project_ref = Except.ok P)
    (hupd : client.update
        { project_id := P.val, api_definition_id := definition_id,
          site := { host := host, subdomain := subdomain } } = Except.ok d) :
    DeploymentHandlerLive.handle resolve client
        (DeploymentSubcommand.Add project_ref definition_id host subdomain) =
      (Except.ok (GolemResult.Ok (DeployPayload.deployment d)),
       [ClientCall.update
          { project_id := P.val, api_definition_id := definition_id,
            site := { host := host, subdomain := subdomain } }]) := by
  simp [DeploymentHandlerLive.handle, hres, hupd]

theorem C5_deployment_add_witness :
    DeploymentHandlerLive.handle (fun _ => Except.ok ⟨"proj-uuid-1"⟩)
        { get := fun _ _ => Except.error ⟨"unused"⟩,
          update := fun dep => Except.ok dep,
          delete := fun _ _ _ => Except.error ⟨"unused"⟩ }
        (DeploymentSubcommand.Add ProjectRef.Default "def-1"
          "api.example.com" "tenant1") =
      (Except.ok (GolemResult.Ok (DeployPayload.deployment
          ⟨"proj-uuid-1", "def-1", ⟨"api.example.com", "tenant1"⟩⟩)),
       [ClientCall.update ⟨"proj-uuid-1", "def-1",
          ⟨"api.example.com", "tenant1"⟩⟩]) :=
  C5_deployment_add _ _ _ _ _ _ ⟨"proj-uuid-1"⟩ _ rfl rfl

/-- C6: on a Delete deployment subcommand whose project reference resolution
fails, the handler returns exactly the resolution's unified error and issues
no client call at all (in particular, delete is never invoked). -/
theorem C6_deployment_delete_short_circuit
    (resolve : ProjectRef → Except GolemError ProjectId)
    (client : DeploymentClient)
    (project_ref : ProjectRef) (site definition_id : String)
    (e : GolemError)
    (hres : resolve project_ref = Except.error e) :
    DeploymentHandlerLive.handle resolve client
        (DeploymentSubcommand.Delete project_ref site definition_id) =
      (Except.error e, []) := by
  simp [DeploymentHandlerLive.handle, hres]

theorem C6_deployment_delete_short_circuit_witness :
    DeploymentHandlerLive.handle
        (fun _ => Except.error ⟨"Not found: project my-proj"⟩)
        { get := fun _ _ => Except.error ⟨"unused"⟩,
          update := fun dep => Except.ok dep,
          delete := fun _ _ _ => Except.ok "deleted" }
        (DeploymentSubcommand.Delete (ProjectRef.Name "my-proj")
          "site-1" "def-1") =
      (Except.error ⟨"Not found: project my-proj"⟩, []) :=
  C6_deployment_delete_short_circuit _ _ _ _ _ _ rfl

/-- C7: header() is exactly "bearer " followed by the held token secret's
value, and account_id() is the AccountId holding the credential data's
account identifier (both are pure reads of the context). -/
theorem C7_cloud_authentication (a : CloudAuthentication) :
    a.header = "bearer " ++ a.token.secret.value ∧
    a.accountId = AccountId.mk a.token.data.account_id :=
  ⟨rfl, rfl⟩

/-- C8 counterexample: a component 404 whose backend-supplied message is the
empty string is normalized to a GolemError carrying the EMPTY message, so
the "always non-empty message" invariant fails as stated. -/
theorem C8_counterexample :
    (golemErrorOfComponentError (ComponentError.Status404 "")).msg = "" :=
  rfl

/-- C8 (amended): every backend error variant of every resource family is
normalized to a GolemError with a non-empty message, EXCEPT the component
family's 404, which passes the backend message through verbatim and hence is
non-empty only when that message is (here: for every component error other
than a 404 with empty backend message). -/
theorem C8_message_nonempty :
    (∀ e : AccountError, (golemErrorOfAccountError e).msg ≠ "") ∧
    (∀ e : TokenError, (golemErrorOfTokenError e).msg ≠ "") ∧
    (∀ e : LoginError, (golemErrorOfLoginError e).msg ≠ "") ∧
    (∀ e : ProjectError, (golemErrorOfProjectError e).msg ≠ "") ∧
    (∀ e : GrantError, (golemErrorOfGrantError e).msg ≠ "") ∧
    (∀ e : ProjectPolicyError, (golemErrorOfProjectPolicyError e).msg ≠ "") ∧
    (∀ e : ProjectGrantError, (golemErrorOfProjectGrantError e).msg ≠ "") ∧
    (∀ e : ComponentError, e ≠ ComponentError.Status404 "" →
       (golemErrorOfComponentError e).msg ≠ "") := by
  refine ⟨accountErrorMsgNeEmpty, tokenErrorMsgNeEmpty, loginErrorMsgNeEmpty,
    projectErrorMsgNeEmpty, grantErrorMsgNeEmpty, projectPolicyErrorMsgNeEmpty,
    projectGrantErrorMsgNeEmpty, ?_⟩
  intro e h
  cases e with
  | RequestFailure err => exact append_ne_empty_left _ _ (by decide)
  | InvalidHeaderValue err => exact append_ne_empty_left _ _ (by decide)
  | UnexpectedStatus sc => exact append_ne_empty_left _ _ (by decide)
  | Status504 => decide
  | Status404 message =>
      intro hm
      exact h (congrArg ComponentError.Status404 hm)
  | Status403 err => exact append_ne_empty_left _ _ (by decide)
  | Status400 errs => exact append_ne_empty_left _ _ (by decide)
  | Status500 err => exact append_ne_empty_left _ _ (by decide)
  | Status409 component_id => exact append_ne_empty_right _ _ (by decide)

theorem C8_message_nonempty_witness :
    ComponentError.Status404 "x" ≠ ComponentError.Status404 "" ∧
    (golemErrorOfComponentError (ComponentError.Status404 "x")).msg ≠ "" :=
  ⟨by decide,
   C8_message_nonempty.2.2.2.2.2.2.2 (ComponentError.Status404 "x") (by decide)⟩

/-- C9: conversion of parsed component arguments is total whenever at least
one of component_id / component_name is present: a present component_id
yields the Id variant (independently of the project fields), and an absent
component_id unwraps component_name, whose panic branch is unreachable under
the precondition. -/
theorem C9_componentArgs_total (args : ComponentIdOrNameArgs)
    (h : args.component_id.isSome ∨ args.component_name.isSome) :
    (ComponentIdOrName.fromArgs args).isSome ∧
    (∀ id, args.component_id = some id →
       ComponentIdOrName.fromArgs args =
         some (ComponentIdOrName.Id ⟨id⟩)) ∧
    (∀ n, args.component_id = none → args.component_name = some n →
       ComponentIdOrName.fromArgs args =
         some (ComponentIdOrName.Name ⟨n⟩
           (ProjectRef.fromArgs ⟨args.project_id, args.project_name⟩))) := by
  obtain ⟨cid, cname, pid, pname⟩ := args
  refine ⟨?_, ?_, ?_⟩
  · cases cid with
    | some id => rfl
    | none =>
        cases cname with
        | some n => rfl
        | none => rcases h with h | h <;> simp at h
  · intro id hid
    cases cid with
    | none => exact absurd hid (by simp)
    | some i =>
        injection hid with hh
        subst hh
        rfl
  · intro n h0 h1
    cases cid with
    | some i => exact absurd h0 (by simp)
    | none =>
        cases cname with
        | none => exact absurd h1 (by simp)
        | some m =>
            injection h1 with hh
            subst hh
            cases pid with
            | some x => rfl
            | none => cases pname <;> rfl

theorem C9_componentArgs_total_witness :
    (ComponentIdOrName.fromArgs ⟨none, some "comp-1", none, some "proj-1"⟩).isSome :=
  (C9_componentArgs_total ⟨none, some "comp-1", none, some "proj-1"⟩
    (Or.inr rfl)).1

/-- C10: converting a ComponentIdOrName to its argument representation and
back yields the original value (the unwrap never panics on such arguments),
for the Id variant and for the Name variant with every ProjectRef. -/
theorem C10_componentIdOrName_round_trip (c : ComponentIdOrName) :
    ComponentIdOrName.fromArgs (ComponentIdOrNameArgs.fromIdOrName c) =
      some c := by
  cases c with
  | Id id => cases id; rfl
  | Name name pr =>
      cases name
      cases pr with
      | Id pid => cases pid; rfl
      | Name n => rfl
      | Default => rfl
